import Mathlib

/-!
Shallow embedding of the row-parsing and aggregation pipeline of
`app/main.py` (Angular Sheets Dashboard backend).

Cells fetched from the spreadsheet service are strings; a raw row is a
list of cell strings.  Pandas operations used by the source are modelled
pointwise over lists:

* `pd.to_numeric(·, errors="coerce")` on a cell → `parseNumeric`
  (decimal literals with optional sign, fraction and exponent; anything
  else coerces to NaN, modelled as `none`);
* `pd.to_datetime(·, errors="coerce")` on a cell → `parseDate`
  (ISO `YYYY-MM-DD` dates; anything else coerces to NaT, i.e. `none`);
* `pd.DataFrame(rows, columns=[4 names])` pads shorter rows with NaN up
  to the widest row, and raises when the widest row's width differs
  from 4;
* `Series.map` over a role-keyed frame → association-list lookup;
* `groupby(col)` with the default `dropna=True` → `groupBy`, which keys
  the groups by the distinct non-null values of the column.

Missing values (NaN / None / NaT) are `Option.none` throughout.
-/

namespace SheetsBackend

/-- Propagated results of fallible steps can be compared decidably. -/
instance {ε α : Type} [DecidableEq ε] [DecidableEq α] : DecidableEq (Except ε α) := fun a b =>
  match a, b with
  | .error x, .error y =>
    if h : x = y then .isTrue (by rw [h]) else .isFalse (by intro hc; cases hc; exact h rfl)
  | .ok x, .ok y =>
    if h : x = y then .isTrue (by rw [h]) else .isFalse (by intro hc; cases hc; exact h rfl)
  | .error _, .ok _ => .isFalse (by intro hc; cases hc)
  | .ok _, .error _ => .isFalse (by intro hc; cases hc)

/-- A raw spreadsheet row: the list of its cell strings
(Google Sheets omits trailing empty cells, so rows can be short). -/
abbrev RawRow := List String

/-- Calendar date (the part of a pandas `Timestamp` that the pipeline uses). -/
structure Date where
  year : ℕ
  month : ℕ
  day : ℕ
deriving DecidableEq, Repr

/-- The whitespace characters Python's `str.strip` removes (ASCII range). -/
def isPySpace (c : Char) : Bool :=
  c == ' ' || c == '\t' || c == '\n' || c == '\r' || c == '\x0b' || c == '\x0c'

/-- Python's `str.strip()` (also the `.str.strip()` of pandas):
remove leading and trailing whitespace. -/
def pyStrip (s : String) : String :=
  ((s.data.dropWhile isPySpace).reverse.dropWhile isPySpace).reverse.asString

/-- Python's `str.lower()` (also the `.str.lower()` of pandas) on the
ASCII letters the pipeline's strings use. -/
def pyLower (s : String) : String :=
  (s.data.map (fun c =>
    if 'A' ≤ c ∧ c ≤ 'Z' then Char.ofNat (c.toNat + 32) else c)).asString

/-- Value of a list of decimal digit characters. -/
def digitsVal (ds : List Char) : ℕ :=
  ds.foldl (fun a c => a * 10 + (c.toNat - 48)) 0

/-- Exponent suffix of a decimal literal: optional sign then digits. -/
def parseExpPart (cs : List Char) : Option ℤ :=
  let (sg, cs1) : ℤ × List Char :=
    match cs with
    | '+' :: r => (1, r)
    | '-' :: r => (-1, r)
    | r => (1, r)
  let ds := cs1.takeWhile Char.isDigit
  let rest := cs1.dropWhile Char.isDigit
  if ds = [] ∨ rest ≠ [] then none else some (sg * (digitsVal ds : ℤ))

/-- Exact rational value of the decimal literal with sign `sg`, integer
digits `ip`, fraction digits `fp` and decimal exponent `e`, i.e.
`sg * (ip.fp) * 10 ^ e`. -/
def decValue (sg : ℤ) (ip fp : List Char) (e : ℤ) : ℚ :=
  let n : ℤ := sg * ((digitsVal ip : ℤ) * 10 ^ fp.length + (digitsVal fp : ℤ))
  if 0 ≤ e then mkRat (n * 10 ^ e.toNat) (10 ^ fp.length)
  else mkRat n (10 ^ fp.length * 10 ^ (-e).toNat)

/-- Model of `pd.to_numeric(cell, errors="coerce")` on a string cell:
parses a (whitespace-trimmed) decimal literal `[+-]?digits[.digits][(e|E)exp]`
to a rational; any other text coerces to NaN (`none`). -/
def parseNumeric (s : String) : Option ℚ :=
  let cs := (pyStrip s).data
  let (sg, cs1) : ℤ × List Char :=
    match cs with
    | '+' :: r => (1, r)
    | '-' :: r => (-1, r)
    | r => (1, r)
  let ip := cs1.takeWhile Char.isDigit
  let r1 := cs1.dropWhile Char.isDigit
  let (fp, r2) : List Char × List Char :=
    match r1 with
    | '.' :: r => (r.takeWhile Char.isDigit, r.dropWhile Char.isDigit)
    | _ => ([], r1)
  if ip = [] ∧ fp = [] then none
  else
    match r2 with
    | [] => some (decValue sg ip fp 0)
    | 'e' :: r3 => (parseExpPart r3).map (fun e => decValue sg ip fp e)
    | 'E' :: r3 => (parseExpPart r3).map (fun e => decValue sg ip fp e)
    | _ => none

/-- Split a character list at every `'-'` (the separators themselves are
dropped; an empty input gives one empty chunk). -/
def splitOnDash (cs : List Char) : List (List Char) :=
  match cs with
  | [] => [[]]
  | c :: r =>
    if c = '-' then [] :: splitOnDash r
    else
      match splitOnDash r with
      | h :: t => (c :: h) :: t
      | [] => [[c]]

/-- A nonempty all-digit chunk read as a number. -/
def chunkNat? (cs : List Char) : Option ℕ :=
  if cs ≠ [] ∧ cs.all Char.isDigit then some (digitsVal cs) else none

/-- Model of `pd.to_datetime(cell, errors="coerce")` on a string cell,
restricted to ISO `YYYY-MM-DD` dates; any other text coerces to NaT
(`none`).  The pipeline only ever carries the parse result along,
keeping the record either way. -/
def parseDate (s : String) : Option Date :=
  match (splitOnDash (pyStrip s).data).map chunkNat? with
  | [some y, some m, some d] =>
    if 1 ≤ m ∧ m ≤ 12 ∧ 1 ≤ d ∧ d ≤ 31 then some ⟨y, m, d⟩ else none
  | _ => none

/-- `parse_role` of `app/main.py` on an actual string: trims the input and
applies `re.match(r"^([^(]+?)(?:\s*\((.*?)\))?$", ...)`.  The regex matches
exactly when either the trimmed text is nonempty and free of `'('`, or it
has its first `'('` after at least one character, ends with `')'`, and the
text between that `'('` and the final `')'` has no newline (lazy `.` does
not cross `'\n'`); in the latter case group 1 is the text before the first
`'('` and group 2 the text between.  On regex failure the function falls
back to `(trimmed, None)`.  Group 1 is stripped again before return. -/
def parse_role_str (raw : String) : String × Option String :=
  let t := pyStrip raw
  let cs := t.data
  match cs.findIdx? (fun c => c = '(') with
  | none => (t, none)
  | some j =>
    if 0 < j ∧ cs.getLast? = some ')' ∧ ('\n' ∉ (cs.drop (j + 1)).dropLast)
    then ((pyStrip ((cs.take j).asString)), some ((cs.drop (j + 1)).dropLast.asString))
    else (t, none)

/-- `parse_role` of `app/main.py`: a non-string (missing) value yields
`(None, None)`; a string is handled by `parse_role_str`. -/
def parse_role (raw : Option String) : Option String × Option String :=
  match raw with
  | none => (none, none)
  | some s =>
    let p := parse_role_str s
    (some p.1, p.2)

/-- One row of the cleaned dataframe produced by `sheet_to_df`: after
`dropna(subset=["role", "win"])` the `role` cell is present (a string)
and `win` parsed as a number; `date` is the coerced date, possibly NaT. -/
structure DFRow where
  date : Option Date
  role : String
  win : ℚ
deriving DecidableEq, Repr

/-- The per-row part of `sheet_to_df`: positional cells
`A = date, B = role, C = win` (D ignored); `win` numeric-coerced, `date`
date-coerced, then the row is dropped when `role` or `win` is NaN. -/
def cleanRow (r : RawRow) : Option DFRow :=
  match r.get? 1, (r.get? 2).bind parseNumeric with
  | some role, some w => some ⟨(r.get? 0).bind parseDate, role, w⟩
  | _, _ => none

/-- Width of the widest row (pandas pads every shorter row up to this). -/
def maxWidth (rows : List RawRow) : ℕ :=
  rows.foldl (fun m r => max m r.length) 0

/-- `sheet_to_df` of `app/main.py`: fewer than two rows yield the empty
frame; otherwise the header row is discarded and
`pd.DataFrame(rows, columns=["date","role","win","winrate"])` raises
(`Except.error`) unless the widest data row has exactly 4 cells; the
surviving frame keeps columns `date, role, win` with `win`
numeric-coerced, `date` date-coerced, and rows with NaN `role` or `win`
dropped. -/
def sheet_to_df (values : List RawRow) : Except String (List DFRow) :=
  if values.length < 2 then .ok []
  else if maxWidth values.tail ≠ 4 then .error "columns mismatch"
  else .ok (values.tail.filterMap cleanRow)

/-- One raw line of the role-catalog table `app/roles.csv` (an external
static table, not part of the repository): role name, category, team;
the latter two may be missing. -/
structure CatalogRow where
  role : String
  category : Option String
  team : Option String
deriving DecidableEq, Repr

/-- The loaded role map: an association from normalized role names to
(category, team), modelling the role-indexed dataframe. -/
abbrev RoleMap := List (String × Option String × Option String)

/-- `get_role_map` of `app/main.py` applied to the parsed rows of
`roles.csv`: the `role` column is stripped and lower-cased and becomes
the index.  (A load failure yields the empty frame, i.e. `[]`.) -/
def get_role_map (rows : List CatalogRow) : RoleMap :=
  rows.map (fun r => (pyLower (pyStrip r.role), r.category, r.team))

/-- `Series.map` against a role-indexed column: the value at the first
matching index entry, NaN (`none`) when the key is absent. -/
def seriesMap (m : RoleMap) (k : String) : Option (Option String × Option String) :=
  (m.find? (fun e => e.1 = k)).map (fun e => e.2)

/-- `df["role_clean"].map(ROLE_MAP["category"])` for one key. -/
def mapCategory (m : RoleMap) (k : String) : Option String :=
  match seriesMap m k with
  | some v => v.1
  | none => none

/-- `df["role_clean"].map(ROLE_MAP["team"])` for one key. -/
def mapTeam (m : RoleMap) (k : String) : Option String :=
  match seriesMap m k with
  | some v => v.2
  | none => none

/-- `EVIL_OVERRIDE_NOTES` of `app/main.py`. -/
def EVIL_OVERRIDE_NOTES : List String :=
  ["turned evil", "evil", "evil team"]

/-- Python `str(x)` as applied by `.astype(str)` to a possibly-missing
string: `None` is stringified to the text `"None"`. -/
def pyStr (o : Option String) : String :=
  match o with
  | none => "None"
  | some s => s

/-- One row of the per-sheet dataframe after all the column assignments
in `get_all_sheets`: the original `date`, `role`, `win` columns plus
`role_clean`, `role_note`, `role_note_norm`, `category`, `team`,
in that column order. -/
structure Record where
  date : Option Date
  role : String
  win : ℚ
  role_clean : String
  role_note : Option String
  role_note_norm : String
  category : Option String
  team : Option String
deriving DecidableEq, Repr

/-- The per-row effect of the column assignments in `get_all_sheets`:
extract base role and note with `parse_role`, normalize the note via
`astype(str).str.lower().str.strip()`, map category and team from
`ROLE_MAP` keyed by `role_clean`, then force `team = "Evil"` when the
normalized note is in `EVIL_OVERRIDE_NOTES`. -/
def normalizeRow (cat : RoleMap) (r : DFRow) : Record :=
  let p := parse_role_str r.role
  let norm := pyStrip (pyLower (pyStr p.2))
  let team0 := mapTeam cat p.1
  { date := r.date
    role := r.role
    win := r.win
    role_clean := p.1
    role_note := p.2
    role_note_norm := norm
    category := mapCategory cat p.1
    team := if norm ∈ EVIL_OVERRIDE_NOTES then some "Evil" else team0 }

/-- `df.groupby(key)["win"].agg(games="count", winrate="mean")` with the
default `dropna=True`: one group per distinct non-null key value; rows
whose key is null belong to no group. -/
def groupBy (key : Record → Option String) (df : List Record) :
    List (String × ℕ × ℚ) :=
  ((df.filterMap key).dedup).map (fun k =>
    let grp := df.filter (fun r => key r = some k)
    (k, grp.length, if grp.length = 0 then 0
                    else (grp.map Record.win).sum / (grp.length : ℚ)))

/-- The `by_role` grouping of `get_all_sheets` (keyed by `role_clean`,
which is never null). -/
def by_role (df : List Record) : List (String × ℕ × ℚ) :=
  groupBy (fun r => some r.role_clean) df

/-- The `by_team` grouping of `get_all_sheets`. -/
def by_team (df : List Record) : List (String × ℕ × ℚ) :=
  groupBy Record.team df

/-- The `by_category` grouping of `get_all_sheets`. -/
def by_category (df : List Record) : List (String × ℕ × ℚ) :=
  groupBy Record.category df

/-- Round half to even at integer precision, as Python's `round`. -/
def roundHalfEven (q : ℚ) : ℤ :=
  let f : ℤ := ⌊q⌋
  let r : ℚ := q - (f : ℚ)
  if r < 1 / 2 then f
  else if 1 / 2 < r then f + 1
  else if f % 2 = 0 then f else f + 1

/-- Python's `round(x, 3)`: round half to even at 3 decimal places. -/
def round3 (q : ℚ) : ℚ :=
  (roundHalfEven (1000 * q) : ℚ) / 1000

/-- A JSON-ready cell value as produced by `df.to_dict(orient="records")`
after `df.fillna("")`. -/
inductive Value where
  | str (s : String)
  | num (q : ℚ)
  | date (d : Date)
deriving DecidableEq, Repr

/-- `fillna("")` on a possibly-missing string cell. -/
def fillStr (o : Option String) : Value :=
  match o with
  | none => .str ""
  | some s => .str s

/-- `fillna("")` on a possibly-NaT date cell. -/
def fillDate (o : Option Date) : Value :=
  match o with
  | none => .str ""
  | some d => .date d

/-- One entry of `df.to_dict(orient="records")` on the full per-sheet
dataframe after `df.fillna("")`: a field map over all eight columns in
column order. -/
def recordToDict (r : Record) : List (String × Value) :=
  [("date", fillDate r.date),
   ("role", .str r.role),
   ("win", .num r.win),
   ("role_clean", .str r.role_clean),
   ("role_note", fillStr r.role_note),
   ("role_note_norm", .str r.role_note_norm),
   ("category", fillStr r.category),
   ("team", fillStr r.team)]

/-- The `summary` object of a per-sheet response. -/
structure Summary where
  games_played : ℕ
  overall_winrate : ℚ
deriving DecidableEq, Repr

/-- A successful per-sheet response: `{summary, log}` where `log` is what
`df.to_dict(orient="records")` serializes. -/
structure ReportEntry where
  summary : Summary
  log : List (List (String × Value))
deriving DecidableEq, Repr

/-- The value stored for a sheet in `all_data`: either a report entry or
the empty-list placeholder assigned when processing the sheet raised. -/
inductive SheetEntry where
  | report (e : ReportEntry)
  | placeholder
deriving DecidableEq, Repr

/-- The body of the per-sheet `try` in `get_all_sheets`, given the
outcome of `fetch_sheet` (which may raise): clean the rows, compute
`games_played` and `overall_winrate` before normalization, run the
column assignments, and build `{summary, log}`; any raise inside
yields the `[]` placeholder.  On an empty cleaned frame the two-column
assignment `df[["role_clean", "role_note"]] = df["role"].apply(...)`
raises (`Series.apply` on an empty series returns an empty series, and
assigning a one-dimensional value to two columns raises
`ValueError: Columns must be same length as key`), so such a sheet also
falls to the placeholder and the `overall_winrate = 0` computed for
zero games never reaches a response. -/
def processSheet (cat : RoleMap) (fetched : Except String (List RawRow)) :
    SheetEntry :=
  match fetched with
  | .error _ => .placeholder
  | .ok values =>
    match sheet_to_df values with
    | .error _ => .placeholder
    | .ok df =>
      let games_played := df.length
      let overall_winrate : ℚ :=
        if 0 < games_played then (df.map DFRow.win).sum / (games_played : ℚ) else 0
      if df = [] then .placeholder
      else
        let recs := df.map (normalizeRow cat)
        .report
          { summary := { games_played := games_played
                         overall_winrate := round3 overall_winrate }
            log := recs.map recordToDict }

/-- `get_all_sheets` of `app/main.py`, with the external collaborators as
parameters: if the metadata fetch raises the whole request fails;
otherwise every listed sheet gets an entry, each processed independently
inside its own `try`. -/
def get_all_sheets (cat : RoleMap) (metadata : Except String (List String))
    (fetch : String → Except String (List RawRow)) :
    Except String (List (String × SheetEntry)) :=
  match metadata with
  | .error e => .error e
  | .ok titles => .ok (titles.map (fun t => (t, processSheet cat (fetch t))))

/-- Catalog rows used in the concrete examples: a parsed `roles.csv`. -/
def exampleCatalogRows : List CatalogRow :=
  [⟨"assassin", some "Town", some "Good"⟩,
   ⟨"seamstress", some "Town", some "Good"⟩]

/-- The loaded role map of the examples. -/
def exampleCatalog : RoleMap := get_role_map exampleCatalogRows

/-- A well-formed sheet: header plus two good rows. -/
def goodSheet : List RawRow :=
  [["date", "role", "win", "winrate"],
   ["2024-01-01", "assassin", "1", ""],
   ["2024-01-02", "seamstress (drunk)", "0", ""]]

/-- A sheet whose only data row has an empty role label and a valid win flag. -/
def emptyRoleSheet : List RawRow :=
  [["date", "role", "win", "winrate"],
   ["2024-01-01", "", "1", ""]]

/-- A sheet whose only data row has win text `"2"`. -/
def winTwoSheet : List RawRow :=
  [["date", "role", "win", "winrate"],
   ["2024-01-01", "assassin", "2", ""]]

/-- A sheet with one well-formed data row and one five-cell data row. -/
def wideRowSheet : List RawRow :=
  [["date", "role", "win", "winrate"],
   ["2024-01-01", "assassin", "1", ""],
   ["2024-01-02", "seamstress", "1", "", "extra"]]

/-- A cleaned row whose role is in no catalog, so team and category are null. -/
def unknownRoleRecords : List Record :=
  [normalizeRow exampleCatalog ⟨none, "mysteryrole", 1⟩]

/-- A fetcher where sheet `"B"` raises and the others return `goodSheet`. -/
def exampleFetch (t : String) : Except String (List RawRow) :=
  if t = "B" then .error "network error" else .ok goodSheet

/-- The cleaned dataframe of `goodSheet`. -/
def goodDF : List DFRow :=
  [⟨some ⟨2024, 1, 1⟩, "assassin", 1⟩,
   ⟨some ⟨2024, 1, 2⟩, "seamstress (drunk)", 0⟩]

/-- A sheet whose only data row has a non-numeric win text, so every
data row is dropped and the cleaned frame is empty. -/
def allDroppedSheet : List RawRow :=
  [["date", "role", "win", "winrate"],
   ["2024-01-01", "assassin", "notanumber", ""]]

/-- A sheet with one well-formed data row, one short row, and one row
with a blank win cell. -/
def mixedSheet : List RawRow :=
  [["date", "role", "win", "winrate"],
   ["2024-01-01", "assassin", "1", ""],
   ["2024-01-05"],
   ["2024-01-06", "seamstress", "", ""]]

/-- A sheet processed without a dataframe error cleans to exactly the
per-row survivors of the data rows. -/
theorem sheet_to_df_ok_eq {values : List RawRow} {df : List DFRow}
    (h : sheet_to_df values = .ok df) :
    df = values.tail.filterMap cleanRow := by
  unfold sheet_to_df at h
  by_cases h2 : values.length < 2
  · rw [if_pos h2] at h
    cases h
    match values, h2 with
    | [], _ => rfl
    | [_], _ => rfl
  · rw [if_neg h2] at h
    by_cases hw : maxWidth values.tail ≠ 4
    · rw [if_pos hw] at h
      cases h
    · rw [if_neg hw] at h
      cases h
      rfl

/-- Claim C7: for every kept record, a role note that lower-cases and
trims into the evil-override set forces `team = "Evil"` regardless of the
catalog's team; any other normalized note leaves the catalog-assigned
team; the override is applied to the already-looked-up team. -/
theorem C7_evil_override (cat : RoleMap) (r : DFRow) :
    (∀ s, (normalizeRow cat r).role_note = some s →
      (normalizeRow cat r).role_note_norm = pyStrip (pyLower s)) ∧
    ((normalizeRow cat r).role_note_norm ∈ EVIL_OVERRIDE_NOTES →
      (normalizeRow cat r).team = some "Evil") ∧
    ((normalizeRow cat r).role_note_norm ∉ EVIL_OVERRIDE_NOTES →
      (normalizeRow cat r).team = mapTeam cat (normalizeRow cat r).role_clean) := by
  refine ⟨?_, ?_, ?_⟩
  · intro s hs
    simp only [normalizeRow] at hs ⊢
    rw [hs, pyStr]
  · intro h
    simp only [normalizeRow] at h ⊢
    rw [if_pos h]
  · intro h
    simp only [normalizeRow] at h ⊢
    rw [if_neg h]

/-- Witness for C7: with the example catalog, a note normalizing to
"turned evil" forces team "Evil" although the catalog team is "Good",
and the note "drunk" keeps the catalog team "Good". -/
theorem C7_evil_override_witness :
    (normalizeRow exampleCatalog ⟨none, "assassin ( Turned Evil )", 1⟩).team = some "Evil" ∧
    (normalizeRow exampleCatalog ⟨none, "seamstress (drunk)", 0⟩).team = some "Good" := by
  constructor
  · exact (C7_evil_override exampleCatalog ⟨none, "assassin ( Turned Evil )", 1⟩).2.1
      (by decide)
  · exact ((C7_evil_override exampleCatalog ⟨none, "seamstress (drunk)", 0⟩).2.2
      (by decide)).trans (by decide)

/-- Claim C10: a kept record whose role label has no parenthetical note
can never trigger the evil override: the absent note is stringified to
"None", normalizes to "none", neither is in the override set, and the
team stays exactly the catalog lookup result (null for unknown roles). -/
theorem C10_absent_note_never_evil (cat : RoleMap) (r : DFRow)
    (h : (parse_role_str r.role).2 = none) :
    (normalizeRow cat r).role_note = none ∧
    pyStr (normalizeRow cat r).role_note = "None" ∧
    (normalizeRow cat r).role_note_norm = "none" ∧
    "None" ∉ EVIL_OVERRIDE_NOTES ∧ "none" ∉ EVIL_OVERRIDE_NOTES ∧
    (normalizeRow cat r).team = mapTeam cat (normalizeRow cat r).role_clean := by
  have hnorm : (normalizeRow cat r).role_note_norm = "none" := by
    simp only [normalizeRow, h]
    decide
  refine ⟨by simp only [normalizeRow, h], ?_, hnorm, by decide, by decide, ?_⟩
  · simp only [normalizeRow, h]
    rfl
  · simp only [normalizeRow, h]
    exact if_neg (by decide)

/-- Witness for C10: a plain "assassin" label parses with no note, and its
record keeps the catalog team "Good" with normalized note "none". -/
theorem C10_absent_note_never_evil_witness :
    (parse_role_str "assassin").2 = none ∧
    (normalizeRow exampleCatalog ⟨none, "assassin", 1⟩).role_note_norm = "none" ∧
    (normalizeRow exampleCatalog ⟨none, "assassin", 1⟩).team =
      mapTeam exampleCatalog (normalizeRow exampleCatalog ⟨none, "assassin", 1⟩).role_clean := by
  have h := C10_absent_note_never_evil exampleCatalog ⟨none, "assassin", 1⟩ (by decide)
  exact ⟨by decide, h.2.2.1, h.2.2.2.2.2⟩

/-- Claim C4, evaluated at the failing input: the catalog keys are
stripped and lower-cased by `get_role_map`, but the lookup probe
`role_clean` is not lower-cased, so the label "Assassin" misses the
catalog entry keyed "assassin" and resolves to null category and team,
while the already-lower-case label (or one differing only in
whitespace) resolves to the entry. -/
theorem C4_lookup_probe_not_lowercased :
    get_role_map [⟨"Assassin", some "Town", some "Good"⟩] =
      [("assassin", some "Town", some "Good")] ∧
    (normalizeRow (get_role_map [⟨"Assassin", some "Town", some "Good"⟩])
      ⟨none, "Assassin", 1⟩).category = none ∧
    (normalizeRow (get_role_map [⟨"Assassin", some "Town", some "Good"⟩])
      ⟨none, "Assassin", 1⟩).team = none ∧
    (normalizeRow (get_role_map [⟨"Assassin", some "Town", some "Good"⟩])
      ⟨none, "  assassin  ", 1⟩).team = some "Good" := by
  decide

/-- Claim C5 fails on the code: a kept record whose role is unknown to
the catalog has null team and category, and the `by_team` and
`by_category` group-bys then contain no group at all for it (pandas
`groupby` drops null keys), though it still contributes to `by_role`. -/
theorem C5_null_keys_silently_omitted :
    (unknownRoleRecords.map Record.team) = [none] ∧
    (unknownRoleRecords.map Record.category) = [none] ∧
    by_team unknownRoleRecords = [] ∧
    by_category unknownRoleRecords = [] ∧
    (by_role unknownRoleRecords).map (fun g => g.1) = ["mysteryrole"] := by
  refine ⟨by decide, by decide, rfl, rfl, rfl⟩

/-- Claim C5 as amended: every kept record contributes to the `by_role`
grouping, but `by_team` and `by_category` key their groups by exactly
the distinct non-null team/category values, so a record with null team
or category belongs to no group of that group-by and there is no
null-keyed "unclassified" group. -/
theorem C5_amended_null_keys_dropped (df : List Record) (r : Record)
    (h : r ∈ df) :
    r.role_clean ∈ (by_role df).map (fun g => g.1) ∧
    (by_team df).map (fun g => g.1) = (df.filterMap Record.team).dedup ∧
    (by_category df).map (fun g => g.1) = (df.filterMap Record.category).dedup := by
  refine ⟨?_, ?_, ?_⟩
  · simp only [by_role, groupBy, List.map_map]
    have h1 : ((fun g : String × ℕ × ℚ => g.1) ∘ fun k =>
        (k, (df.filter (fun x => some x.role_clean = some k)).length,
          if (df.filter (fun x => some x.role_clean = some k)).length = 0 then 0
          else ((df.filter (fun x => some x.role_clean = some k)).map Record.win).sum /
            ((df.filter (fun x => some x.role_clean = some k)).length : ℚ))) = id := by
      funext k
      rfl
    rw [h1, List.map_id]
    exact List.mem_dedup.mpr (List.mem_filterMap.mpr ⟨r, h, rfl⟩)
  · simp only [by_team, groupBy, List.map_map]
    have h1 : ((fun g : String × ℕ × ℚ => g.1) ∘ fun k =>
        (k, (df.filter (fun x => x.team = some k)).length,
          if (df.filter (fun x => x.team = some k)).length = 0 then 0
          else ((df.filter (fun x => x.team = some k)).map Record.win).sum /
            ((df.filter (fun x => x.team = some k)).length : ℚ))) = id := by
      funext k
      rfl
    rw [h1, List.map_id]
  · simp only [by_category, groupBy, List.map_map]
    have h1 : ((fun g : String × ℕ × ℚ => g.1) ∘ fun k =>
        (k, (df.filter (fun x => x.category = some k)).length,
          if (df.filter (fun x => x.category = some k)).length = 0 then 0
          else ((df.filter (fun x => x.category = some k)).map Record.win).sum /
            ((df.filter (fun x => x.category = some k)).length : ℚ))) = id := by
      funext k
      rfl
    rw [h1, List.map_id]

/-- Witness for the amended C5: the unknown-role record contributes to
`by_role`, and the team/category group keys are the empty key lists. -/
theorem C5_amended_null_keys_dropped_witness :
    (normalizeRow exampleCatalog ⟨none, "mysteryrole", 1⟩).role_clean ∈
      (by_role unknownRoleRecords).map (fun g => g.1) ∧
    (by_team unknownRoleRecords).map (fun g => g.1) =
      (unknownRoleRecords.filterMap Record.team).dedup ∧
    (by_category unknownRoleRecords).map (fun g => g.1) =
      (unknownRoleRecords.filterMap Record.category).dedup :=
  C5_amended_null_keys_dropped unknownRoleRecords
    (normalizeRow exampleCatalog ⟨none, "mysteryrole", 1⟩) (by decide)

/-- Rounding zero to three decimals yields zero. -/
theorem round3_zero : round3 0 = 0 := by
  norm_num [round3, roundHalfEven]

/-- Claim C1 at a failing input: the response `log` serializes the full
dataframe (`df.to_dict` after `fillna`), so its entries carry eight
fields — including the raw `role` label, `role_clean` and
`role_note_norm` — instead of exactly the six NormalizedRecord fields
with `role` the parsed base label; the cleaned `log` frame computed at
lines 298-305 is never used. -/
theorem C1_log_serializes_full_dataframe :
    ∃ e, processSheet exampleCatalog (.ok goodSheet) = .report e ∧
      e.log.map (List.map Prod.fst) =
        [["date", "role", "win", "role_clean", "role_note", "role_note_norm",
          "category", "team"],
         ["date", "role", "win", "role_clean", "role_note", "role_note_norm",
          "category", "team"]] ∧
      (e.log.head?.bind (fun entry => entry.get? 1)) =
        some ("role", Value.str "assassin") ∧
      ((e.log.get? 1).bind (fun entry => entry.get? 1)) =
        some ("role", Value.str "seamstress (drunk)") := by
  refine ⟨_, rfl, by decide, by decide, by decide⟩

/-- Claim C2 fails on the code: a row with an empty role label but a
numeric win flag is not dropped — it is counted in `games_played`,
appears in the log, and carries `role_clean = ""`. -/
theorem C2_empty_role_row_not_dropped :
    ∃ e, processSheet exampleCatalog (.ok emptyRoleSheet) = .report e ∧
      e.summary.games_played = 1 ∧ e.log.length = 1 ∧
      (e.log.head?.bind (fun entry => entry.get? 3)) =
        some ("role_clean", Value.str "") := by
  refine ⟨_, rfl, by decide, by decide, by decide⟩

/-- Claim C2 as amended: for a sheet processed without error, the kept
rows are exactly the per-row survivors, and a row survives exactly when
its win cell is present and parseable as numeric (an absent role cell
forces an absent win cell, and an empty-string role is kept). -/
theorem C2_amended_drop_iff_win_unparseable (values : List RawRow)
    (df : List DFRow) (h : sheet_to_df values = .ok df) :
    df = values.tail.filterMap cleanRow ∧
    ∀ r : RawRow, (cleanRow r).isSome ↔ ((r.get? 2).bind parseNumeric).isSome := by
  refine ⟨sheet_to_df_ok_eq h, ?_⟩
  intro r
  unfold cleanRow
  cases h1 : r.get? 1 with
  | none =>
    have hlen : r.length ≤ 1 := List.get?_eq_none.mp h1
    have h2 : r.get? 2 = none := List.get?_eq_none.mpr (by omega)
    rw [h2]
    simp
  | some role =>
    cases h2 : (r.get? 2).bind parseNumeric with
    | none => simp
    | some w => simp

/-- Witness for the amended C2: `goodSheet` cleans to `goodDF`, and the
empty-role row survives because its win text parses. -/
theorem C2_amended_drop_iff_win_unparseable_witness :
    goodDF = goodSheet.tail.filterMap cleanRow ∧
    ((cleanRow ["2024-01-01", "", "1", ""]).isSome ↔
      (((["2024-01-01", "", "1", ""] : RawRow).get? 2).bind parseNumeric).isSome) := by
  have h := C2_amended_drop_iff_win_unparseable goodSheet goodDF (by decide)
  exact ⟨h.1, h.2 ["2024-01-01", "", "1", ""]⟩

/-- Claim C3 fails on the code: the win text `"2"` is numeric, so the row
is kept, and its record has `win = 2`, outside `{0, 1}`. -/
theorem C3_numeric_win_two_kept :
    ∃ e, processSheet exampleCatalog (.ok winTwoSheet) = .report e ∧
      e.summary.games_played = 1 ∧
      (e.log.head?.bind (fun entry => entry.get? 2)) =
        some ("win", Value.num 2) := by
  refine ⟨_, rfl, by decide, by decide⟩

/-- Claim C3 as amended: every kept record's `win` is the numeric value
parsed from its win text, so it lies in `{0, 1}` whenever the win text
is one of the standard flags "0", "1", "0.0", "1.0" (while other
numeric texts are kept with their own value). -/
theorem C3_amended_win_is_parsed_numeric (r : RawRow) (dr : DFRow)
    (h : cleanRow r = some dr) :
    (∃ s, r.get? 2 = some s ∧ parseNumeric s = some dr.win) ∧
    (∀ s, r.get? 2 = some s → s = "0" ∨ s = "1" ∨ s = "0.0" ∨ s = "1.0" →
      dr.win = 0 ∨ dr.win = 1) := by
  have h2 : ∃ w, (r.get? 2).bind parseNumeric = some w ∧ dr.win = w := by
    unfold cleanRow at h
    cases hx : r.get? 1 <;> rw [hx] at h
    · cases h
    · cases hy : (r.get? 2).bind parseNumeric <;> rw [hy] at h
      · cases h
      · cases h
        exact ⟨_, rfl, rfl⟩
  obtain ⟨w, hw, hwin⟩ := h2
  obtain ⟨s, hs, hps⟩ := Option.bind_eq_some.mp hw
  constructor
  · exact ⟨s, hs, by rw [hps, hwin]⟩
  · intro s2 hs2 hcases
    rw [hs2] at hs
    cases hs
    rw [hwin]
    rcases hcases with h0 | h1 | h00 | h10
    · subst h0
      left
      have hx : parseNumeric "0" = some 0 := by decide
      rw [hps] at hx
      exact Option.some.inj hx
    · subst h1
      right
      have hx : parseNumeric "1" = some 1 := by decide
      rw [hps] at hx
      exact Option.some.inj hx
    · subst h00
      left
      have hx : parseNumeric "0.0" = some 0 := by decide
      rw [hps] at hx
      exact Option.some.inj hx
    · subst h10
      right
      have hx : parseNumeric "1.0" = some 1 := by decide
      rw [hps] at hx
      exact Option.some.inj hx

/-- Witness for the amended C3: the first data row of `goodSheet` has win
text "1" and its kept record has `win = 1`. -/
theorem C3_amended_win_is_parsed_numeric_witness :
    (∃ s, (["2024-01-01", "assassin", "1", ""] : RawRow).get? 2 = some s ∧
      parseNumeric s = some ((1 : ℚ))) ∧
    ((1 : ℚ) = 0 ∨ (1 : ℚ) = 1) := by
  have h := C3_amended_win_is_parsed_numeric ["2024-01-01", "assassin", "1", ""]
    ⟨some ⟨2024, 1, 1⟩, "assassin", 1⟩ (by decide)
  exact ⟨h.1, h.2 "1" (by decide) (by simp)⟩

/-- Claim C6 fails on the code: a sheet holding a well-formed row next to
a five-cell row does not drop just the bad row — building the dataframe
raises, the per-sheet handler catches, and the whole sheet becomes the
empty placeholder. -/
theorem C6_wide_row_fails_whole_sheet :
    processSheet exampleCatalog (.ok wideRowSheet) = .placeholder := by
  decide

/-- Claim C6 as amended: when every data row fits in four cells, the
widest has exactly four, and at least one row survives cleaning, bad
rows are silently dropped row by row — the remaining rows are
normalized and aggregated into a report entry; but a sheet whose
widest data row differs from four cells, or all of whose data rows are
dropped, fails wholesale to the empty placeholder. -/
theorem C6_amended_short_rows_dropped (cat : RoleMap) (values : List RawRow)
    (h2 : 2 ≤ values.length) (hw : maxWidth values.tail = 4)
    (hne : values.tail.filterMap cleanRow ≠ []) :
    ∃ e, processSheet cat (.ok values) = .report e ∧
      e.summary.games_played = (values.tail.filterMap cleanRow).length ∧
      e.log = (values.tail.filterMap cleanRow).map
        (fun r => recordToDict (normalizeRow cat r)) := by
  have hok : sheet_to_df values = .ok (values.tail.filterMap cleanRow) := by
    unfold sheet_to_df
    rw [if_neg (by omega), if_neg (by omega)]
  simp only [processSheet, hok]
  rw [if_neg hne]
  exact ⟨_, rfl, rfl, by simp [List.map_map]⟩

/-- Witness for the amended C6: in `mixedSheet` the short row and the
blank-win row are dropped and the one good row is aggregated. -/
theorem C6_amended_short_rows_dropped_witness :
    2 ≤ mixedSheet.length ∧ maxWidth mixedSheet.tail = 4 ∧
    ∃ e, processSheet exampleCatalog (.ok mixedSheet) = .report e ∧
      e.summary.games_played = 1 := by
  obtain ⟨e, he, hg, _⟩ := C6_amended_short_rows_dropped exampleCatalog mixedSheet
    (by decide) (by decide) (by decide)
  exact ⟨by decide, by decide, e, he, hg.trans (by decide)⟩

/-- Claim C8 against the code: the part with kept records holds — every
produced summary has `games_played` equal to the number of kept records
and `overall_winrate` equal to their win sum over the count, rounded
half-to-even to three decimals — but the claimed N = 0 case never
reaches a response: a sheet with zero kept records crashes the
empty-frame column assignment and falls to the empty placeholder,
although the code explicitly computed the `overall_winrate = 0` default
for it. -/
theorem C8_summary_winrate (cat : RoleMap) (values : List RawRow)
    (e : ReportEntry) (h : processSheet cat (.ok values) = .report e) :
    processSheet exampleCatalog (.ok allDroppedSheet) = .placeholder ∧
    0 < (values.tail.filterMap cleanRow).length ∧
    e.summary.games_played = (values.tail.filterMap cleanRow).length ∧
    e.summary.overall_winrate =
      round3 (((values.tail.filterMap cleanRow).map DFRow.win).sum /
        ((values.tail.filterMap cleanRow).length : ℚ)) := by
  refine ⟨by decide, ?_⟩
  cases hdf : sheet_to_df values with
  | error msg =>
    simp only [processSheet, hdf] at h
    cases h
  | ok df =>
    have hdfe := sheet_to_df_ok_eq hdf
    subst hdfe
    simp only [processSheet, hdf] at h
    by_cases hz : values.tail.filterMap cleanRow = []
    · rw [if_pos hz] at h
      cases h
    · rw [if_neg hz] at h
      cases h
      refine ⟨List.length_pos.mpr hz, rfl, ?_⟩
      show round3 _ = round3 _
      rw [if_pos (List.length_pos.mpr hz)]

/-- Witness for C8: `goodSheet` keeps two records with one win, so
`games_played = 2` and `overall_winrate = round3 (1/2)`, while the sheet
with no kept records yields the placeholder instead of a summary. -/
theorem C8_summary_winrate_witness :
    ∃ e, processSheet exampleCatalog (.ok goodSheet) = .report e ∧
      e.summary.games_played = 2 ∧
      e.summary.overall_winrate = round3 (1 / 2) ∧
      processSheet exampleCatalog (.ok allDroppedSheet) = .placeholder := by
  obtain ⟨hp, _, hg, hw⟩ := C8_summary_winrate exampleCatalog goodSheet _ rfl
  refine ⟨_, rfl, hg.trans (by decide), hw.trans ?_, hp⟩
  have hdf : goodSheet.tail.filterMap cleanRow = goodDF := by decide
  rw [hdf]
  norm_num [goodDF]

/-- Claim C9: if fetching or processing a single sheet raises, only that
sheet's entry becomes the empty placeholder; every listed sheet still
gets its independently processed entry and the request succeeds. -/
theorem C9_per_sheet_failure_isolated (cat : RoleMap) (titles : List String)
    (fetch : String → Except String (List RawRow)) (b : String)
    (hb : (∃ msg, fetch b = .error msg) ∨
      (∃ v msg, fetch b = .ok v ∧ sheet_to_df v = .error msg)) :
    ∃ out, get_all_sheets cat (.ok titles) fetch = .ok out ∧
      out = titles.map (fun t => (t, processSheet cat (fetch t))) ∧
      processSheet cat (fetch b) = .placeholder ∧
      (b ∈ titles → (b, SheetEntry.placeholder) ∈ out) ∧
      ∀ t ∈ titles, (t, processSheet cat (fetch t)) ∈ out := by
  have hb2 : processSheet cat (fetch b) = .placeholder := by
    rcases hb with ⟨msg, hm⟩ | ⟨v, msg, hv, hs⟩
    · simp only [processSheet, hm]
    · simp only [processSheet, hv, hs]
  refine ⟨titles.map (fun t => (t, processSheet cat (fetch t))), rfl, rfl, hb2, ?_, ?_⟩
  · intro hbm
    have hmem := List.mem_map_of_mem (fun t => (t, processSheet cat (fetch t))) hbm
    simp only [hb2] at hmem
    exact hmem
  · intro t ht
    exact List.mem_map_of_mem _ ht

/-- Witness for C9: with sheets A, B, C and the fetch of B raising, the
request succeeds, B's entry is the placeholder, and A and C keep their
independently computed entries. -/
theorem C9_per_sheet_failure_isolated_witness :
    ∃ out, get_all_sheets exampleCatalog (.ok ["A", "B", "C"]) exampleFetch = .ok out ∧
      out = ["A", "B", "C"].map (fun t => (t, processSheet exampleCatalog (exampleFetch t))) ∧
      processSheet exampleCatalog (exampleFetch "B") = .placeholder ∧
      ("B", SheetEntry.placeholder) ∈ out := by
  obtain ⟨out, h1, h2, h3, h4, _⟩ :=
    C9_per_sheet_failure_isolated exampleCatalog ["A", "B", "C"] exampleFetch "B"
      (Or.inl ⟨"network error", by decide⟩)
  exact ⟨out, h1, h2, h3, h4 (by decide)⟩

end SheetsBackend
